import Mathlib

/-!
Verification development for the YouTube data collector / rater
(two Python sources: youtube-collector-streamlit.py, called the
"streamlit variant" below, and youtube-collector-streamlit-updatedmanus.py,
called the "manus variant").

Modeling conventions:
- Python floats are modeled as exact rationals (ℚ); the numeric claims
  checked here (bounds, thresholds, orderings) are exact-arithmetic facts.
- Python strings are Lean `String`; all string operations used by the code
  (lower-casing, substring membership, joining, splitting) are implemented
  below over the character list, restricted to ASCII, which covers every
  keyword constant appearing in the source.
- Dictionary lookups that may be absent, and library calls that may raise
  (isodate.parse_duration, int(...), datetime.fromisoformat), are modeled
  with Option: `none` is a raised exception / absent key.
- A Python function that can let an exception escape is embedded as
  `Except String α`; `.error` marks an escaped exception.
- Calls to external collaborators (YouTube API, oEmbed, Google Sheets) are
  oracles: functions stored in an environment structure.
-/

namespace DataCollector

/-! ### String helpers (models of the Python primitives used by the code) -/

/-- Model of Python str.lower for ASCII characters (all keyword constants in
the source are ASCII). -/
def lowerChar (c : Char) : Char :=
  if 'A' ≤ c ∧ c ≤ 'Z' then Char.ofNat (c.toNat + 32) else c

/-- Python s.lower(). -/
def pyLower (s : String) : String := ⟨s.data.map lowerChar⟩

/-- Does the second list occur at the head of the first list. -/
def headMatches : List Char → List Char → Bool
  | _, [] => true
  | [], _ :: _ => false
  | a :: as, b :: bs => a == b && headMatches as bs

/-- Does `needle` occur as a contiguous run inside `hay`. -/
def containsSeq (needle : List Char) : List Char → Bool
  | [] => headMatches [] needle
  | c :: t => headMatches (c :: t) needle || containsSeq needle t

/-- Python `needle in hay` on strings. -/
def strContains (hay needle : String) : Bool := containsSeq needle.data hay.data

def digitVal (c : Char) : Nat := c.toNat - 48

def natOfDigits (ds : List Char) : Nat := ds.foldl (fun n c => 10 * n + digitVal c) 0

/-- Python int(s) for a decimal string: optional surrounding spaces, optional
sign, then at least one digit. `none` models a raised ValueError. -/
def pyInt (s : String) : Option Int :=
  let cs := s.data.dropWhile (· = ' ')
  let cs := (cs.reverse.dropWhile (· = ' ')).reverse
  match cs with
  | '-' :: ds =>
      if !ds.isEmpty && ds.all Char.isDigit then some (-(natOfDigits ds : Int)) else none
  | '+' :: ds =>
      if !ds.isEmpty && ds.all Char.isDigit then some ((natOfDigits ds : Int)) else none
  | ds =>
      if !ds.isEmpty && ds.all Char.isDigit then some ((natOfDigits ds : Int)) else none

/-- Seconds denoted by one ISO-8601 time designator. -/
def durMult : Char → Nat
  | 'H' => 3600
  | 'M' => 60
  | _ => 1

/-- The designators that may still follow after `d` (components must appear
in H, M, S order, each at most once). -/
def allowedAfter (d : Char) (allowed : List Char) : List Char :=
  (allowed.dropWhile (· ≠ d)).tail

/-- Leading run of digits, as a number, with the rest of the input. -/
def parseNum (cs : List Char) : Option (Nat × List Char) :=
  let ds := cs.takeWhile Char.isDigit
  if ds.isEmpty then none else some (natOfDigits ds, cs.drop ds.length)

/-- Body of the ISO-8601 time-duration parse: a sequence of number/designator
pairs, designators in H, M, S order. The first argument is fuel (the input
length suffices since each step consumes at least two characters). -/
def parseDurAux : Nat → List Char → List Char → Option Nat
  | _, [], _ => some 0
  | 0, _ :: _, _ => none
  | fuel + 1, cs, allowed =>
      match parseNum cs with
      | none => none
      | some (n, rest) =>
          match rest with
          | [] => none
          | d :: rest2 =>
              if allowed.contains d then
                match parseDurAux fuel rest2 (allowedAfter d allowed) with
                | some q => some (durMult d * n + q)
                | none => none
              else none

/-- Model of isodate.parse_duration(s).total_seconds(), restricted to the
PT[nH][nM][nS] forms the YouTube API produces (whose value is an exact
whole number of seconds, computed in ℕ and cast). `none` models a raised
ISO8601Error (in particular on any malformed string). -/
def parse_duration (s : String) : Option ℚ :=
  match s.data with
  | 'P' :: 'T' :: rest => (parseDurAux rest.length rest ['H', 'M', 'S']).map (fun n => (n : ℚ))
  | _ => none

/-- Python str.join generalized over the separator. -/
def joinWith : String → List String → String
  | _, [] => ""
  | _, [s] => s
  | sep, s :: rest => s ++ sep ++ joinWith sep rest

def splitOnColonGo : List Char → List Char → List String
  | [], acc => [⟨acc.reverse⟩]
  | c :: rest, acc =>
      if c = ':' then ⟨acc.reverse⟩ :: splitOnColonGo rest []
      else splitOnColonGo rest (c :: acc)

/-- Python s.split(a colon). -/
def splitOnColon (s : String) : List String := splitOnColonGo s.data []

/-! ### Data model of the per-video API payload -/

/-- The contentDetails caption field as the code may see it: a JSON boolean,
a string, or absent. -/
inductive CaptionVal
  | boolVal (v : Bool)
  | strVal (v : String)
  | missing
deriving DecidableEq

/-- The slice of the videos().list payload that validation and record
construction read. `duration` is the raw ISO-8601 string;
`viewCount`/`likeCount`/`commentCount` are the raw strings of
statistics.get(...) (absent key → `none`, which Python turns into the
default 0); `publishedAt` is the instant parsed by datetime.fromisoformat,
as epoch seconds (`none` models a missing or unparseable value, i.e. a
raise at the parse site). -/
structure Details where
  title : String
  description : String
  caption : CaptionVal
  duration : String
  viewCount : Option String
  likeCount : Option String
  commentCount : Option String
  publishedAt : Option Int
  channelTitle : String
  tags : List String
deriving DecidableEq

/-- One search result: item.id.videoId and item.snippet.title. -/
structure SearchItem where
  videoId : String
  title : String
deriving DecidableEq

/-- int(details.statistics.get(key, 0)): absent key gives 0, a present
malformed string raises. -/
def statInt : Option String → Option Int
  | none => some 0
  | some s => pyInt s

def videoUrl (videoId : String) : String := "https://youtube.com/watch?v=" ++ videoId

/-! ### Streamlit-variant validation (validate_video_optimized) -/

/-- check_caption_availability: bool value is taken as is, a string compares
lower-cased against "true", an absent key defaults to False. (The
try/except in the source never fires in this model; it returns False.) -/
def check_caption_availability : CaptionVal → Bool
  | .boolVal v => v
  | .strVal v => pyLower v == "true"
  | .missing => false

/-- The category_keywords table of the streamlit validate_video_optimized
(dict.get of an unknown category gives []). -/
def category_keywords (cat : String) : List String :=
  if cat = "heartwarming" then
    ["heartwarming", "touching", "emotional", "reunion", "surprise", "family", "love",
     "soldier", "homecoming", "dog reunion", "acts kindness", "baby first time",
     "proposal reaction", "homeless helped", "teacher surprised", "saving animal"]
  else if cat = "funny" then
    ["funny", "comedy", "humor", "hilarious", "joke", "laugh", "entertaining", "fails",
     "epic fail", "instant karma", "prank", "bloopers", "comedy gold", "dad jokes"]
  else if cat = "traumatic" then
    ["accident", "tragedy", "disaster", "emergency", "breaking news", "shocking",
     "dramatic rescue", "natural disaster", "police chase", "survival story", "near death",
     "extreme weather", "earthquake", "tornado", "avalanche", "explosion"]
  else []

/-- Rejection reasons of the streamlit validate_video_optimized; each
constructor is one return site, carrying the data interpolated into the
f-string of the source. -/
inductive Reason
  | duplicate
  | alreadyProcessed
  | fetchFailed
  | noCaptions
  | tooShort (secs : ℚ)
  | viewCountLow (n : Int)
  | noKeywords (cat : String)
deriving DecidableEq

/-- Tagged result of the streamlit validate_video_optimized. -/
inductive VResult
  | accept (details : Details)
  | reject (reason : Reason)
deriving DecidableEq

/-- Session/collaborator state read by the streamlit validate: ids of
st.session_state.collected_videos, self.existing_sheet_ids,
self.discarded_urls, and get_video_details as an oracle (`none` is the
caught HttpError / empty-items case). -/
structure CollectorEnv where
  collectedIds : List String
  existingSheetIds : List String
  discardedUrls : List String
  detailsOf : String → Option Details

/-- The streamlit validate_video_optimized. The function body has no
try/except, so the two raise sites (isodate.parse_duration on the duration
string, int(...) on the viewCount string) surface as `.error`, an escaped
exception. -/
def validate_video_optimized (env : CollectorEnv) (item : SearchItem)
    (target_category : String) (require_captions : Bool) : Except String VResult :=
  let video_id := item.videoId
  let video_url := videoUrl video_id
  let title := item.title
  if env.collectedIds.contains video_id || env.existingSheetIds.contains video_id then
    .ok (.reject .duplicate)
  else if env.discardedUrls.contains video_url then
    .ok (.reject .alreadyProcessed)
  else
    match env.detailsOf video_id with
    | none => .ok (.reject .fetchFailed)
    | some details =>
        if require_captions && !check_caption_availability details.caption then
          .ok (.reject .noCaptions)
        else
          match parse_duration details.duration with
          | none => .error "isodate.parse_duration raised"
          | some duration_seconds =>
              if duration_seconds < 90 then
                .ok (.reject (.tooShort duration_seconds))
              else
                match statInt details.viewCount with
                | none => .error "int raised on viewCount"
                | some view_count =>
                    if view_count < 10000 then
                      .ok (.reject (.viewCountLow view_count))
                    else
                      let title_desc_text := pyLower (pyLower title ++ " " ++ details.description)
                      let matched_keywords :=
                        (category_keywords target_category).filter
                          (fun kw => strContains title_desc_text kw)
                      if matched_keywords.isEmpty then
                        .ok (.reject (.noKeywords target_category))
                      else
                        .ok (.accept details)

/-! ### Manus-variant validation (validate_video_optimized of the updated
file, whole body wrapped in try/except) -/

/-- The oEmbed payload fields read by the manus variant. Numeric defaults 0
model .get(key, 0); optional title/author model .get with a fallback. -/
structure Oembed where
  html : String
  thumbnail_width : Int
  thumbnail_height : Int
  title : Option String
  author_name : Option String
deriving DecidableEq

def shorts_indicators : List String := ["#shorts", "#short", "shorts", "short video"]

/-- detect_shorts_by_url_pattern (the video id argument is unused by the
branches; the internal try/except never fires in this model). -/
def detect_shorts_by_url_pattern (oembed_data : Oembed) : Bool :=
  if strContains oembed_data.html "/shorts/" then true
  else if oembed_data.thumbnail_height > 0 && oembed_data.thumbnail_width > 0 &&
      decide ((oembed_data.thumbnail_width : ℚ) / (oembed_data.thumbnail_height : ℚ) < 12/10) then
    true
  else if shorts_indicators.any
      (fun ind => strContains (pyLower (oembed_data.title.getD "")) ind) then
    true
  else if strContains oembed_data.html "width=\"200\"" &&
      strContains oembed_data.html "height=\"113\"" then
    true
  else false

def music_keywords : List String :=
  ["music video", "official video", "official music",
   "lyrics", "lyric video", "audio", "soundtrack",
   "ost", "mv", "song", "album", "single release"]

def compilation_keywords : List String :=
  ["best of", "top 10", "top 20",
   "montage", "every time", "all moments", "mega compilation"]

/-- Outcome of check_content_filters (the author argument is lower-cased by
the source but never consulted by any branch). -/
inductive ContentCheck
  | passed
  | music (kw : String)
  | compilation (kw : String)
deriving DecidableEq

/-- check_content_filters: first matching music keyword, else first matching
compilation keyword, else pass. -/
def check_content_filters (title _author : String) : ContentCheck :=
  let title_lower := pyLower title
  match music_keywords.find? (fun kw => strContains title_lower kw) with
  | some kw => .music kw
  | none =>
      match compilation_keywords.find? (fun kw => strContains title_lower kw) with
      | some kw => .compilation kw
      | none => .passed

/-- The caption test of the manus variant: contentDetails.get of the
caption key, defaulting to the string "false", compared against the string
"true". Only the exact string "true" passes; a JSON boolean True compares
unequal to the string in Python, and an absent key gets the default. -/
def manusCaptionCheck : CaptionVal → Bool
  | .strVal v => v == "true"
  | _ => false

/-- Rejection reasons of the manus validate_video_optimized, one constructor
per return site, plus validationError for the outer except-branch. -/
inductive MReason
  | oembedFailed
  | musicTitle (kw : String)
  | compilationTitle (kw : String)
  | shortDetected
  | duplicate
  | apiFetchFailed
  | noCaptions
  | tooOld
  | tooShort (secs : ℚ)
  | viewCountLow (n : Int)
  | musicTag (kw : String)
  | compilationTag (kw : String)
  | validationError (msg : String)
deriving DecidableEq

/-- Tagged result of the manus validate_video_optimized:
(True, "Passed all checks", details) or (False, reason, None). -/
inductive MResult
  | accept (details : Details)
  | reject (reason : MReason)
deriving DecidableEq

/-- Session/collaborator state read by the manus validate: the oEmbed oracle
(`none` is the caught request failure / non-200 status), the ids of
st.session_state.collected_videos, the videos().list oracle, and the
current instant datetime.now as epoch seconds. -/
structure ManusEnv where
  oembedOf : String → Option Oembed
  collectedIds : List String
  detailsOf : String → Option Details
  now : Int

/-- Body of the manus validate_video_optimized (everything inside the outer
try). Raise sites (datetime.fromisoformat, isodate.parse_duration, int on
viewCount) surface as `.error` and are caught by the wrapper below. -/
def validate_manus_body (env : ManusEnv) (item : SearchItem) : Except String MResult :=
  let video_id := item.videoId
  let title := item.title
  match env.oembedOf video_id with
  | none => .ok (.reject .oembedFailed)
  | some oembed_data =>
      let oembed_title := oembed_data.title.getD title
      let oembed_author := oembed_data.author_name.getD ""
      match check_content_filters oembed_title oembed_author with
      | .music kw => .ok (.reject (.musicTitle kw))
      | .compilation kw => .ok (.reject (.compilationTitle kw))
      | .passed =>
          if detect_shorts_by_url_pattern oembed_data then
            .ok (.reject .shortDetected)
          else if env.collectedIds.contains video_id then
            .ok (.reject .duplicate)
          else
            match env.detailsOf video_id with
            | none => .ok (.reject .apiFetchFailed)
            | some details =>
                if !manusCaptionCheck details.caption then
                  .ok (.reject .noCaptions)
                else
                  match details.publishedAt with
                  | none => .error "datetime.fromisoformat raised"
                  | some published_at =>
                      if published_at < env.now - 180 * 86400 then
                        .ok (.reject .tooOld)
                      else
                        match parse_duration details.duration with
                        | none => .error "isodate.parse_duration raised"
                        | some duration_seconds =>
                            if duration_seconds < 90 then
                              .ok (.reject (.tooShort duration_seconds))
                            else
                              match statInt details.viewCount with
                              | none => .error "int raised on viewCount"
                              | some view_count =>
                                  if view_count < 10000 then
                                    .ok (.reject (.viewCountLow view_count))
                                  else
                                    let tags := details.tags.map pyLower
                                    match music_keywords.find?
                                        (fun kw => tags.any (fun tag => strContains tag kw)) with
                                    | some kw => .ok (.reject (.musicTag kw))
                                    | none =>
                                        match compilation_keywords.find?
                                            (fun kw => tags.any (fun tag => strContains tag kw)) with
                                        | some kw => .ok (.reject (.compilationTag kw))
                                        | none => .ok (.accept details)

/-- The manus validate_video_optimized: the whole body runs under
try/except, so every escaped exception is converted into the tagged
rejection (False, "Validation error: ...", None). -/
def validate_video_optimized_manus (env : ManusEnv) (item : SearchItem) : MResult :=
  match validate_manus_body env item with
  | .ok r => r
  | .error msg => .reject (.validationError msg)

/-! ### Rater: sentiment and timestamped-moment extraction -/

def positive_words : List String :=
  ["amazing", "incredible", "beautiful", "love", "great", "good", "nice", "happy"]

def negative_words : List String :=
  ["terrible", "awful", "worst", "hate", "bad", "fake", "boring"]

/-- analyze_sentiment: keyword-count comparison, ties give "neutral". -/
def analyze_sentiment (text : String) : String :=
  let text_lower := pyLower text
  let pos_count := positive_words.countP (fun w => strContains text_lower w)
  let neg_count := negative_words.countP (fun w => strContains text_lower w)
  if pos_count > neg_count then "positive"
  else if neg_count > pos_count then "negative"
  else "neutral"

/-! Model of re.findall with the pattern of extract_timestamped_moments,
two alternatives with groups: an optional lowercase at-plus-whitespace
prefix, one or two digits, a colon, exactly two digits (groups 1 and 2) —
or digits, colon, digits (group 3). The scan is left to right and
non-overlapping, as in the re module. -/

/-- Python regex whitespace class. -/
def isWs (c : Char) : Bool :=
  c = ' ' || c = '\t' || c = '\n' || c = '\r' || c = '\x0b' || c = '\x0c'

/-- One-digit form of the first alternative. -/
def alt1one : List Char → Option ((String × String × String) × List Char)
  | a :: c :: d :: e :: rest =>
      if a.isDigit && c = ':' && d.isDigit && e.isDigit then
        some ((⟨[a]⟩, ⟨[d, e]⟩, ""), rest)
      else none
  | _ => none

/-- First alternative at the current position: two digits greedily, with a
backtrack to one digit. -/
def alt1core : List Char → Option ((String × String × String) × List Char)
  | a :: b :: c :: d :: e :: rest =>
      if a.isDigit && b.isDigit && c = ':' && d.isDigit && e.isDigit then
        some ((⟨[a, b]⟩, ⟨[d, e]⟩, ""), rest)
      else alt1one (a :: b :: c :: d :: e :: rest)
  | l => alt1one l

/-- First alternative with its optional at-plus-whitespace prefix; if the
prefixed attempt fails the engine retries without the prefix (which then
fails on the non-digit letter, as in the regex engine). -/
def alt1full : List Char → Option ((String × String × String) × List Char)
  | 'a' :: 't' :: rest =>
      let ws := rest.takeWhile isWs
      if ws.isEmpty then alt1core ('a' :: 't' :: rest)
      else
        match alt1core (rest.drop ws.length) with
        | some r => some r
        | none => alt1core ('a' :: 't' :: rest)
  | l => alt1core l

/-- Second alternative: one or more digits, a colon, one or more digits,
captured whole as group 3. -/
def alt2 (l : List Char) : Option ((String × String × String) × List Char) :=
  let ds := l.takeWhile Char.isDigit
  if ds.isEmpty then none
  else
    match l.drop ds.length with
    | ':' :: rest2 =>
        let es := rest2.takeWhile Char.isDigit
        if es.isEmpty then none
        else some (("", "", ⟨ds ++ ':' :: es⟩), rest2.drop es.length)
    | _ => none

/-- Try the whole pattern at the current position (first alternative wins). -/
def tryTimestampMatch (l : List Char) : Option ((String × String × String) × List Char) :=
  match alt1full l with
  | some r => some r
  | none => alt2 l

/-- Scan for all non-overlapping matches; the first argument is fuel (the
input length suffices since every match consumes at least one character). -/
def findTimestampsAux : Nat → List Char → List (String × String × String)
  | 0, _ => []
  | _, [] => []
  | fuel + 1, c :: cs =>
      match tryTimestampMatch (c :: cs) with
      | some (g, rest) => g :: findTimestampsAux fuel rest
      | none => findTimestampsAux fuel cs

/-- re.findall(timestamp_pattern, comment): the list of group triples. -/
def re_findall_timestamps (s : String) : List (String × String × String) :=
  findTimestampsAux s.data.length s.data

/-- A timestamped moment, as the dict built by extract_timestamped_moments. -/
structure Moment where
  timestamp : String
  seconds : Int
  comment : String
  relevance_score : ℚ
  category_matches : Nat
  clip_potential : Bool
  sentiment : String
deriving DecidableEq

/-- The category_keywords table local to extract_timestamped_moments. -/
def moment_category_keywords (cat : String) : List String :=
  if cat = "heartwarming" then
    ["crying", "tears", "emotional", "touching", "beautiful", "best part", "favorite moment"]
  else if cat = "funny" then
    ["laugh", "hilarious", "funny", "lol", "comedy", "joke", "humor"]
  else if cat = "traumatic" then
    ["shocking", "unbelievable", "devastating", "terrible", "awful", "important", "crucial moment"]
  else []

def clip_indicators : List String :=
  ["clip this", "short", "viral", "best part", "highlight", "moment", "scene", "timestamp", "here"]

def strong_words : List String :=
  ["amazing", "incredible", "unbelievable", "perfect", "exactly", "omg", "wow"]

/-- The moments contributed by a single comment: nothing without a timestamp
match or with relevance 0; otherwise one moment per matched timestamp whose
joined text splits into exactly two integer parts (the try/except around
int(...) skips a failing part; a malformed timestamp is skipped, not an
error). -/
def momentsOfComment (category_key comment : String) : List Moment :=
  let timestamps := re_findall_timestamps comment
  if timestamps.isEmpty then []
  else
    let comment_lower := pyLower comment
    let category_matches :=
      (moment_category_keywords category_key).countP (fun kw => strContains comment_lower kw)
    let clip_matches := clip_indicators.countP (fun ind => strContains comment_lower ind)
    let emotion_matches := strong_words.countP (fun w => strContains comment_lower w)
    let relevance_score : ℚ :=
      (category_matches : ℚ) * 2 + (clip_matches : ℚ) * (3/2) +
        (if comment.length > 50 then 1 else 0) + (emotion_matches : ℚ)
    if relevance_score > 0 then
      timestamps.filterMap (fun g =>
        let timestamp_str := joinWith ":" ([g.1, g.2.1, g.2.2].filter (· ≠ ""))
        if timestamp_str = "" then none
        else
          let time_parts := splitOnColon timestamp_str
          if time_parts.length = 2 then
            match pyInt (time_parts.getD 0 ""), pyInt (time_parts.getD 1 "") with
            | some m, some s2 =>
                some { timestamp := timestamp_str
                       seconds := m * 60 + s2
                       comment := comment
                       relevance_score := relevance_score
                       category_matches := category_matches
                       clip_potential := clip_matches > 0
                       sentiment := analyze_sentiment comment }
            | _, _ => none
          else none)
    else []

/-- The sort order of the final sorted(...) call: key (-relevance_score,
seconds) ascending, i.e. relevance descending with seconds ascending as the
tie-break. -/
def momentOrder (a b : Moment) : Prop :=
  b.relevance_score < a.relevance_score ∨
    (a.relevance_score = b.relevance_score ∧ a.seconds ≤ b.seconds)

instance : DecidableRel momentOrder := fun a b =>
  decidable_of_iff (b.relevance_score < a.relevance_score ∨
    (a.relevance_score = b.relevance_score ∧ a.seconds ≤ b.seconds)) Iff.rfl

instance : IsTotal Moment momentOrder :=
  ⟨fun a b => by
    unfold momentOrder
    rcases lt_trichotomy a.relevance_score b.relevance_score with h | h | h
    · exact Or.inr (Or.inl h)
    · rcases le_total a.seconds b.seconds with hs | hs
      · exact Or.inl (Or.inr ⟨h, hs⟩)
      · exact Or.inr (Or.inr ⟨h.symm, hs⟩)
    · exact Or.inl (Or.inl h)⟩

instance : IsTrans Moment momentOrder :=
  ⟨fun a b c hab hbc => by
    unfold momentOrder at hab hbc ⊢
    rcases hab with h1 | ⟨e1, s1⟩ <;> rcases hbc with h2 | ⟨e2, s2⟩
    · exact Or.inl (h2.trans h1)
    · exact Or.inl (e2 ▸ h1)
    · exact Or.inl (by rw [e1]; exact h2)
    · exact Or.inr ⟨e1.trans e2, s1.trans s2⟩⟩

/-- extract_timestamped_moments: moments of every comment in order, then the
final sorted(key (-relevance, seconds)) modeled as an insertion sort by
`momentOrder`. -/
def extract_timestamped_moments (comments : List String) (category_key : String) : List Moment :=
  List.insertionSort momentOrder (comments.flatMap (momentsOfComment category_key))

/-! ### Rater: comment analysis and category score -/

/-- The four component signals plus the moments, as returned by
analyze_comments_for_category (the display-only breakdown dict of raw
counts is not modeled). -/
structure Analysis where
  category_validation : ℚ
  emotional_alignment : ℚ
  authenticity_support : ℚ
  engagement_quality : ℚ
  timestamped_moments : List Moment
deriving DecidableEq

def positive_emotions_hw : List String :=
  ["crying", "tears", "emotional", "beautiful", "touching", "moving", "wholesome"]

def authenticity_words_hw : List String := ["real", "genuine", "authentic", "natural"]

def fake_indicators_hw : List String := ["fake", "staged", "acting", "scripted"]

def humor_words : List String := ["laugh", "funny", "hilarious", "lol", "haha", "comedy", "joke"]

def entertainment_words : List String := ["entertaining", "fun", "enjoy", "smile"]

def boring_words : List String := ["boring", "not funny", "stupid", "lame"]

def empathy_words : List String := ["prayers", "sorry", "sad", "terrible", "awful", "devastating"]

def concern_words : List String := ["hope everyone ok", "what happened", "is everyone safe"]

def inappropriate_words : List String := ["lol", "funny", "cool", "awesome"]

/-- analyze_comments_for_category. An empty comment list short-circuits to
all-zero signals. Otherwise keyword presence is counted over the
space-joined lower-cased text, and the per-category signal formulas of the
source are reproduced verbatim (decimal constants written as exact
rationals); an unknown category falls through to the all-0.5 default.
entertainment_words and the concern phrases are transcribed for fidelity
even where a branch only reports them in the unmodeled breakdown dict. -/
def analyze_comments_for_category (comments : List String) (category_key : String) : Analysis :=
  if comments.isEmpty then
    { category_validation := 0
      emotional_alignment := 0
      authenticity_support := 0
      engagement_quality := 0
      timestamped_moments := [] }
  else
    let all_text := pyLower (joinWith " " comments)
    let timestamped_moments := extract_timestamped_moments comments category_key
    let n : ℚ := (comments.length : ℚ)
    if category_key = "heartwarming" then
      let positive_count := positive_emotions_hw.countP (fun w => strContains all_text w)
      let auth_count := authenticity_words_hw.countP (fun w => strContains all_text w)
      let fake_count := fake_indicators_hw.countP (fun w => strContains all_text w)
      { category_validation := min ((positive_count : ℚ) / max (n * (5/100)) 1) 1
        emotional_alignment := min ((positive_count : ℚ) / max (n * (3/100)) 1) 1
        authenticity_support :=
          max (1/10) (min ((auth_count : ℚ) / (max ((fake_count : ℚ) + 1) 1) * (1/2)) 1)
        engagement_quality := min ((positive_count : ℚ) / max n 1) 1
        timestamped_moments := timestamped_moments }
    else if category_key = "funny" then
      let humor_count := humor_words.countP (fun w => strContains all_text w)
      let _entertain_count := entertainment_words.countP (fun w => strContains all_text w)
      let boring_count := boring_words.countP (fun w => strContains all_text w)
      { category_validation := min ((humor_count : ℚ) / max (n * (3/100)) 1) 1
        emotional_alignment := min ((humor_count : ℚ) / max (n * (2/100)) 1) 1
        authenticity_support :=
          if humor_count = boring_count then 1/2
          else min (8/10) (max (2/10) ((humor_count : ℚ) / (max ((boring_count : ℚ) + 1) 1) * (4/10)))
        engagement_quality := min ((humor_count : ℚ) / max n 1) 1
        timestamped_moments := timestamped_moments }
    else if category_key = "traumatic" then
      let empathy_count := empathy_words.countP (fun w => strContains all_text w)
      let concern_count := concern_words.countP (fun ph => strContains all_text ph)
      let inappropriate_count := inappropriate_words.countP (fun w => strContains all_text w)
      let appropriate_total := empathy_count + concern_count
      let validation0 := min ((appropriate_total : ℚ) / max (n * (5/100)) 1) 1
      let validation :=
        if inappropriate_count > appropriate_total then validation0 * (3/10) else validation0
      { category_validation := validation
        emotional_alignment := min ((empathy_count : ℚ) / max (n * (3/100)) 1) 1
        authenticity_support :=
          min (8/10)
            (max (2/10) ((appropriate_total : ℚ) / (max ((inappropriate_count : ℚ) + 1) 1) * (3/10)))
        engagement_quality := min ((appropriate_total : ℚ) / max n 1) 1
        timestamped_moments := timestamped_moments }
    else
      { category_validation := 1/2
        emotional_alignment := 1/2
        authenticity_support := 1/2
        engagement_quality := 1/2
        timestamped_moments := timestamped_moments }

/-- The slice of fetch_video_data that calculate_category_score reads. The
three counters come from int(...) over the YouTube statistics fields, which
are decimal digit strings, hence ℕ. -/
structure VideoData where
  title : String
  description : String
  viewCount : Nat
  likeCount : Nat
  commentCount : Nat
  comments : List String
deriving DecidableEq

/-- The category_keywords table local to calculate_category_score. -/
def score_category_keywords (cat : String) : List String :=
  if cat = "heartwarming" then
    ["heartwarming", "touching", "emotional", "reunion", "surprise", "family", "love"]
  else if cat = "funny" then
    ["funny", "comedy", "humor", "hilarious", "joke", "laugh", "entertaining"]
  else if cat = "traumatic" then
    ["accident", "tragedy", "disaster", "emergency", "breaking news", "shocking"]
  else []

/-- The result dict of calculate_category_score, with the component_scores
dict flattened into fields. -/
structure ScoreResult where
  final_score : ℚ
  confidence : ℚ
  comment_validation : ℚ
  comment_emotional : ℚ
  comment_authenticity : ℚ
  content_match : ℚ
  engagement : ℚ
  comments_analysis : Analysis
deriving DecidableEq

/-- content_match of calculate_category_score. -/
def contentMatchOf (video_data : VideoData) (category_key : String) : ℚ :=
  let title_desc_text := pyLower (video_data.title ++ " " ++ video_data.description)
  let keyword_matches :=
    (score_category_keywords category_key).countP (fun kw => strContains title_desc_text kw)
  min ((keyword_matches : ℚ) * (2/10)) 1

/-- engagement of calculate_category_score: 0.5, overwritten by the capped
like-and-comment to view ratio when viewCount is positive. -/
def engagementOf (video_data : VideoData) : ℚ :=
  if video_data.viewCount > 0 then
    min (((video_data.likeCount : ℚ) + (video_data.commentCount : ℚ)) /
      (video_data.viewCount : ℚ) * 100) 1
  else 1/2

/-- The weighted composite of calculate_category_score: the per-category
weight table applied to the five component scores, scaled by 7.0. The
weight tables are written in the dict order of the source. -/
def weightedScoreOf (video_data : VideoData) (category_key : String) : ℚ :=
  let ca := analyze_comments_for_category video_data.comments category_key
  let content_match := contentMatchOf video_data category_key
  let engagement := engagementOf video_data
  (if category_key = "heartwarming" then
    ca.category_validation * (35/100) + ca.emotional_alignment * (25/100) +
      ca.authenticity_support * (20/100) + content_match * (15/100) + engagement * (5/100)
  else if category_key = "funny" then
    ca.category_validation * (40/100) + ca.authenticity_support * (25/100) +
      ca.emotional_alignment * (20/100) + content_match * (10/100) + engagement * (5/100)
  else
    ca.category_validation * (35/100) + ca.emotional_alignment * (30/100) +
      ca.authenticity_support * (20/100) + content_match * (10/100) + engagement * (5/100)) * 7

/-- The per-category base score (the else-branch of the source is the
traumatic table, so any unknown category also gets 4.0). -/
def baseScoreOf (category_key : String) : ℚ :=
  if category_key = "heartwarming" then 3
  else if category_key = "funny" then 5/2
  else 4

/-- The running total of calculate_category_score up to and including the
category-validation bonus, i.e. just before the authenticity penalty and
the final clamp. -/
def score_before_penalty (video_data : VideoData) (category_key : String) : ℚ :=
  let ca := analyze_comments_for_category video_data.comments category_key
  let final_score := baseScoreOf category_key + weightedScoreOf video_data category_key
  if ca.category_validation > 8/10 then final_score + 1 else final_score

/-- calculate_category_score: weighted composite plus base, the
greater-than-0.8 validation bonus, the below-0.2 authenticity times-0.6
penalty, the min-10 clamp on the score and the min-1 clamp on the
stepwise-built confidence. -/
def calculate_category_score (video_data : VideoData) (category_key : String) : ScoreResult :=
  let ca := analyze_comments_for_category video_data.comments category_key
  let content_match := contentMatchOf video_data category_key
  let engagement := engagementOf video_data
  let final0 := baseScoreOf category_key + weightedScoreOf video_data category_key
  let final1 := if ca.category_validation > 8/10 then final0 + 1 else final0
  let final2 := if ca.authenticity_support < 2/10 then final1 * (6/10) else final1
  let conf0 : ℚ := 3/10
  let conf1 := if video_data.comments.length > 100 then conf0 + 3/10 else conf0
  let conf2 := if video_data.comments.length > 500 then conf1 + 2/10 else conf1
  let conf3 := if ca.category_validation > 6/10 then conf2 + 2/10 else conf2
  { final_score := min final2 10
    confidence := min conf3 1
    comment_validation := ca.category_validation
    comment_emotional := ca.emotional_alignment
    comment_authenticity := ca.authenticity_support
    content_match := content_match
    engagement := engagement
    comments_analysis := ca }

/-! ### Collection loops. Outbound calls (search pages, query picks) are
oracles indexed by the attempt counter; wall-clock fields (collected_at)
and the run-configuration passthrough fields (region_code,
category_filter) are not modeled. -/

def categoriesOf (category : String) : List String :=
  if category = "mixed" then ["heartwarming", "funny", "traumatic"] else [category]

/-- The client-side pre-filter of the streamlit search_videos: drop items
whose lower-cased title contains an unwanted term. -/
def unwanted_title_terms : List String :=
  ["#shorts", "compilation", "top 10", "top 20",
   "every time", "all moments", "best of", "music video",
   "official video", "lyric", "audio only"]

def search_prefilter (items : List SearchItem) : List SearchItem :=
  items.filter
    (fun item => !(unwanted_title_terms.any (fun w => strContains (pyLower item.title) w)))

/-- The video_record dict built by the streamlit collection loop on accept.
`none` models a raise inside int(...) while building the record (the
streamlit loop has no try/except around it). -/
structure VideoRecordS where
  video_id : String
  title : String
  url : String
  category : String
  search_query : String
  duration_seconds : Int
  view_count : Int
  like_count : Int
  comment_count : Int
  published_at : Option Int
  channel_title : String
  tags : String
  page_number : Nat
deriving DecidableEq

def mkVideoRecordS (item : SearchItem) (d : Details) (cat query : String) (page : Nat) :
    Option VideoRecordS :=
  match parse_duration d.duration, statInt d.viewCount, statInt d.likeCount,
      statInt d.commentCount with
  | some dur, some vc, some lc, some cc =>
      some { video_id := item.videoId
             title := d.title
             url := videoUrl item.videoId
             category := cat
             search_query := query
             duration_seconds := Int.floor dur
             view_count := vc
             like_count := lc
             comment_count := cc
             published_at := d.publishedAt
             channel_title := d.channelTitle
             tags := joinWith "," d.tags
             page_number := page }
  | _, _, _, _ => none

/-- Mutable state of collect_videos_with_pagination (streamlit):
collected of this run, the session-wide collected video ids, the
session-wide used-query set, the ids checked this run, and the loop
counters. -/
structure SState where
  collected : List VideoRecordS
  sessionIds : List String
  usedQueries : List String
  checkedIds : List String
  attempts : Nat
  categoryIndex : Nat

/-- Environment of the streamlit collection loop: the validation
collaborators, one search page per (attempt, page index), and the
shuffled-query pick per attempt. -/
structure SLoopEnv where
  cenv : CollectorEnv
  searchPage : Nat → Nat → List SearchItem × Option String
  queryChoice : Nat → String
  require_captions : Bool

/-- The per-item loop of one result page (streamlit). A validation raise or
a record-construction raise propagates: the streamlit loop has no
try/except. -/
def processItemsS (env : SLoopEnv) (target : Nat) (cat query : String) (page : Nat) :
    List SearchItem → SState → Nat → Except String (SState × Nat)
  | [], s, found => .ok (s, found)
  | item :: rest, s, found =>
      if s.collected.length ≥ target then .ok (s, found)
      else if s.checkedIds.contains item.videoId then
        processItemsS env target cat query page rest s found
      else
        let s1 := { s with checkedIds := item.videoId :: s.checkedIds }
        match validate_video_optimized { env.cenv with collectedIds := s1.sessionIds }
            item cat env.require_captions with
        | .error e => .error e
        | .ok (.reject _) => processItemsS env target cat query page rest s1 found
        | .ok (.accept d) =>
            match mkVideoRecordS item d cat query page with
            | none => .error "int raised building the video record"
            | some r =>
                processItemsS env target cat query page rest
                  { s1 with
                    collected := s1.collected ++ [r]
                    sessionIds := s1.sessionIds ++ [item.videoId] }
                  (found + 1)

/-- The pagination loop of one query (streamlit): up to three pages, stop on
an empty page, continue only when the page yielded a next token and at
least one accepted video. The first numeric argument is the remaining page
budget, the second the pages fetched so far. -/
def pageLoopS (env : SLoopEnv) (target attempt : Nat) (cat query : String) :
    Nat → Nat → SState → Except String SState
  | 0, _, s => .ok s
  | fuel + 1, pagesFetched, s =>
      if s.collected.length < target then
        let page := env.searchPage attempt pagesFetched
        let search_results := search_prefilter page.1
        if search_results.isEmpty then .ok s
        else
          match processItemsS env target cat query (pagesFetched + 1) search_results s 0 with
          | .error e => .error e
          | .ok (s1, found) =>
              if page.2.isSome && found > 0 then
                pageLoopS env target attempt cat query fuel (pagesFetched + 1) s1
              else .ok s1
      else .ok s

def max_attempts_streamlit : Nat := 30

def max_pages_streamlit : Nat := 3

/-- One iteration of the outer while of collect_videos_with_pagination. -/
def collectIterationS (env : SLoopEnv) (target : Nat) (category : String) (s : SState) :
    Except String SState :=
  let cats := categoriesOf category
  let current_category := cats.getD (s.categoryIndex % cats.length) ""
  let query := env.queryChoice s.attempts
  let s0 := { s with usedQueries := query :: s.usedQueries }
  match pageLoopS env target s.attempts current_category query max_pages_streamlit 0 s0 with
  | .error e => .error e
  | .ok s1 => .ok { s1 with categoryIndex := s1.categoryIndex + 1, attempts := s1.attempts + 1 }

/-- The outer while of collect_videos_with_pagination, with fuel (the
attempt budget suffices: every iteration increments attempts). -/
def collectLoopS (env : SLoopEnv) (target : Nat) (category : String) :
    Nat → SState → Except String SState
  | 0, s => .ok s
  | fuel + 1, s =>
      if s.collected.length < target ∧ s.attempts < max_attempts_streamlit then
        match collectIterationS env target category s with
        | .error e => .error e
        | .ok s2 => collectLoopS env target category fuel s2
      else .ok s

/-- collect_videos_with_pagination (streamlit), started on the reconciled
session state (already-collected session ids and used queries). -/
def collect_videos_with_pagination (env : SLoopEnv) (target : Nat) (category : String)
    (sessionIds0 usedQueries0 : List String) : Except String SState :=
  collectLoopS env target category max_attempts_streamlit
    { collected := []
      sessionIds := sessionIds0
      usedQueries := usedQueries0
      checkedIds := []
      attempts := 0
      categoryIndex := 0 }

/-- The video_record dict built by the manus collection loop on accept.
`none` models a raise inside int(...), caught by the per-item except. -/
structure VideoRecordM where
  video_id : String
  title : String
  url : String
  category : String
  search_query : String
  duration_seconds : Int
  view_count : Int
  like_count : Int
  comment_count : Int
  published_at : Option Int
  channel_title : String
  tags : String
  has_captions : Bool
deriving DecidableEq

def mkVideoRecordM (item : SearchItem) (d : Details) (cat query : String) :
    Option VideoRecordM :=
  match parse_duration d.duration, statInt d.viewCount, statInt d.likeCount,
      statInt d.commentCount with
  | some dur, some vc, some lc, some cc =>
      some { video_id := item.videoId
             title := d.title
             url := videoUrl item.videoId
             category := cat
             search_query := query
             duration_seconds := Int.floor dur
             view_count := vc
             like_count := lc
             comment_count := cc
             published_at := d.publishedAt
             channel_title := d.channelTitle
             tags := joinWith "," d.tags
             has_captions := manusCaptionCheck d.caption }
  | _, _, _, _ => none

/-- Mutable state of collect_videos (manus). -/
structure MState where
  collected : List VideoRecordM
  sessionIds : List String
  checkedIds : List String
  attempts : Nat
  categoryIndex : Nat
  consecutiveFailures : Nat

/-- Environment of the manus collection loop: validation collaborators, the
search results per attempt, and the random query pick per attempt. -/
structure MLoopEnv where
  menv : ManusEnv
  searchResults : Nat → List SearchItem
  queryChoice : Nat → String

def max_attempts_manus : Nat := 50

def max_consecutive_failures_manus : Nat := 10

/-- The per-item loop of one search-result batch (manus). The per-item
try/except turns a record-construction raise into a skip; the validate
call itself never raises (its own try/except). -/
def processItemsM (env : MLoopEnv) (target : Nat) (cat query : String) :
    List SearchItem → MState → Nat → MState × Nat
  | [], s, found => (s, found)
  | item :: rest, s, found =>
      if s.collected.length ≥ target then (s, found)
      else if s.checkedIds.contains item.videoId then
        processItemsM env target cat query rest s found
      else
        let s1 := { s with checkedIds := item.videoId :: s.checkedIds }
        match validate_video_optimized_manus { env.menv with collectedIds := s1.sessionIds }
            item with
        | .reject _ => processItemsM env target cat query rest s1 found
        | .accept d =>
            match mkVideoRecordM item d cat query with
            | none => processItemsM env target cat query rest s1 found
            | some r =>
                processItemsM env target cat query rest
                  { s1 with
                    collected := s1.collected ++ [r]
                    sessionIds := s1.sessionIds ++ [item.videoId] }
                  (found + 1)

/-- One iteration of the outer while of collect_videos (manus). The Bool is
the break flag: true exactly when the empty-results branch pushed
consecutive failures to the limit. On the no-results path attempts and the
category index advance and the failure counter grows; otherwise the items
are processed, the failure counter is reset, the category index advances
unless the query yielded at least three videos, and attempts advance. -/
def collectIterationM (env : MLoopEnv) (target : Nat) (category : String) (s : MState) :
    MState × Bool :=
  let cats := categoriesOf category
  let current_category := cats.getD (s.categoryIndex % cats.length) ""
  let query := env.queryChoice s.attempts
  let search_results := env.searchResults s.attempts
  if search_results.isEmpty then
    let cf := s.consecutiveFailures + 1
    if cf ≥ max_consecutive_failures_manus then
      ({ s with consecutiveFailures := cf }, true)
    else
      ({ s with
          consecutiveFailures := cf
          attempts := s.attempts + 1
          categoryIndex := s.categoryIndex + 1 }, false)
  else
    let s0 := { s with consecutiveFailures := 0 }
    let step := processItemsM env target current_category query search_results s0 0
    let s1 := step.1
    let found := step.2
    let s2 :=
      if found = 0 then
        { s1 with
          consecutiveFailures := s1.consecutiveFailures + 1
          categoryIndex := s1.categoryIndex + 1 }
      else if found ≥ 3 then { s1 with consecutiveFailures := 0 }
      else { s1 with consecutiveFailures := 0, categoryIndex := s1.categoryIndex + 1 }
    ({ s2 with attempts := s2.attempts + 1 }, false)

/-- The outer while of collect_videos (manus), with fuel (the attempt
budget suffices: every non-breaking iteration increments attempts). -/
def collectLoopM (env : MLoopEnv) (target : Nat) (category : String) :
    Nat → MState → MState
  | 0, s => s
  | fuel + 1, s =>
      if s.collected.length < target ∧ s.attempts < max_attempts_manus then
        match collectIterationM env target category s with
        | (s2, true) => s2
        | (s2, false) => collectLoopM env target category fuel s2
      else s

/-- collect_videos (manus), started on the given session-collected ids. -/
def collect_videos (env : MLoopEnv) (target : Nat) (category : String)
    (sessionIds0 : List String) : MState :=
  collectLoopM env target category max_attempts_manus
    { collected := []
      sessionIds := sessionIds0
      checkedIds := []
      attempts := 0
      categoryIndex := 0
      consecutiveFailures := 0 }

/-! ### The rating loop body (streamlit main, Video Rater mode) -/

/-- One row of the raw_links sheet as the rating loop reads it
(get_next_raw_video returns the first data row with row_number 2).
video_id is next_video.get with no default: the empty string doubles for a
missing or empty value, both falsy in the source check. -/
structure PendingItem where
  video_id : String
  title : String
  url : String
  category : Option String
deriving DecidableEq

/-- The persistent sheets as the rating loop mutates them: the pending
raw_links queue, the discarded url list, the promoted tobe_links rows and
the time_comments rows (video id with its moments). -/
structure RaterState where
  raw_links : List PendingItem
  discarded : List String
  tobe_links : List String
  time_comments : List (String × List Moment)

/-- The outbound fetch of the rating loop: fetch_video_data either returns
the payload or raises. -/
structure RaterEnv where
  fetchResult : String → Except String VideoData

/-- One iteration body of the rating while-loop, after get_next_raw_video
returned the head row. All three paths (scored, analysis error, missing
video id) delete row 2 from raw_links; the url is appended to discarded
only when non-empty; a score at or above 6.5 additionally appends to
tobe_links and time_comments. -/
def rate_step (env : RaterEnv) (s : RaterState) : RaterState :=
  match s.raw_links with
  | [] => s
  | next_video :: rest =>
      let video_category := next_video.category.getD "heartwarming"
      if next_video.video_id ≠ "" then
        match env.fetchResult next_video.video_id with
        | .ok video_data =>
            let analysis := calculate_category_score video_data video_category
            let s1 :=
              if next_video.url ≠ "" then
                { s with discarded := s.discarded ++ [next_video.url] }
              else s
            let s2 := { s1 with raw_links := rest }
            if analysis.final_score ≥ 13/2 then
              { s2 with
                tobe_links := s2.tobe_links ++ [next_video.video_id]
                time_comments :=
                  s2.time_comments ++
                    [(next_video.video_id, analysis.comments_analysis.timestamped_moments)] }
            else s2
        | .error _ =>
            let s1 :=
              if next_video.url ≠ "" then
                { s with discarded := s.discarded ++ [next_video.url] }
              else s
            { s1 with raw_links := rest }
      else
        let s1 :=
          if next_video.url ≠ "" then
            { s with discarded := s.discarded ++ [next_video.url] }
          else s
        { s1 with raw_links := rest }

/-- Well-formedness of the payload a metadata oracle can return for one id:
its numeric fields parse (duration, viewCount for validation; likeCount and
commentCount for record construction). -/
def DetailsWF (d : Details) : Prop :=
  (parse_duration d.duration).isSome ∧ (statInt d.viewCount).isSome ∧
    (statInt d.likeCount).isSome ∧ (statInt d.commentCount).isSome

/-- Well-formedness of a streamlit collection environment: every payload its
metadata oracle can return has parseable numeric fields. This captures the
assumption that the outbound calls return well-formed data. -/
def SLoopEnvWF (env : SLoopEnv) : Prop :=
  ∀ id d, env.cenv.detailsOf id = some d → DetailsWF d

/-! ### Concrete fixtures used by the witness and counterexample theorems.
The epoch-second constants: 1760227200 is 2025-10-12T00:00:00Z (a reference
current instant), 1755000000 is 2025-08-12, inside the 180-day window;
180 days is 15552000 seconds. -/

/-- A well-formed details payload of a 5-minute captioned video matching
heartwarming keywords. -/
def okDet : Details :=
  { title := "x"
    description := "soldier homecoming"
    caption := .strVal "true"
    duration := "PT5M"
    viewCount := some "50000"
    likeCount := some "10"
    commentCount := some "5"
    publishedAt := some 1755000000
    channelTitle := "c"
    tags := [] }

/-- A landscape-video oEmbed payload without thumbnail dimensions. -/
def okOe : Oembed :=
  { html := "<iframe></iframe>"
    thumbnail_width := 0
    thumbnail_height := 0
    title := some "Nice video"
    author_name := some "chan" }

def okItem : SearchItem := { videoId := "vid1", title := "Soldier surprise homecoming" }

/-- Details payload whose duration string is not ISO-8601. -/
def c1Det : Details := { okDet with duration := "not a duration" }

def c1Env : CollectorEnv :=
  { collectedIds := [], existingSheetIds := [], discardedUrls := []
    detailsOf := fun _ => some c1Det }

def c1EnvOk : CollectorEnv := { c1Env with detailsOf := fun _ => some okDet }

def c1EnvM : ManusEnv :=
  { oembedOf := fun _ => some okOe
    collectedIds := []
    detailsOf := fun _ => some okDet
    now := 1760227200 }

/-- Details payload published at epoch 0 (1970), far older than 180 days
before the reference instant, otherwise passing every check. -/
def c3Det : Details := { okDet with publishedAt := some 0 }

def c3Env : CollectorEnv := { c1Env with detailsOf := fun _ => some c3Det }

def c3EnvM : ManusEnv := { c1EnvM with detailsOf := fun _ => some c3Det }

/-- Details payload of a 75-second video with no short-form markers,
captions, high view count. -/
def c6Det : Details := { okDet with duration := "PT1M15S" }

def c6EnvS : CollectorEnv := { c1Env with detailsOf := fun _ => some c6Det }

def c6EnvM : ManusEnv := { c1EnvM with detailsOf := fun _ => some c6Det }

/-- Details payloads at the two sides of the view-count boundary. -/
def c7DetLow : Details := { okDet with viewCount := some "9999" }

def c7DetHigh : Details := { okDet with viewCount := some "10000" }

def c7EnvSLow : CollectorEnv := { c1Env with detailsOf := fun _ => some c7DetLow }

def c7EnvSHigh : CollectorEnv := { c1Env with detailsOf := fun _ => some c7DetHigh }

def c7EnvMLow : ManusEnv := { c1EnvM with detailsOf := fun _ => some c7DetLow }

/-- A concrete rating input: 25 comments of which one carries the single
positive-emotion keyword, no authenticity keywords, four title keywords,
and a 31-in-3500 engagement ratio, giving a pre-penalty total of exactly
8.0 with authenticity support 0.1. -/
def c9Video : VideoData :=
  { title := "reunion surprise family love"
    description := ""
    viewCount := 3500
    likeCount := 30
    commentCount := 1
    comments := "beautiful" :: List.replicate 24 "ok" }

/-- A pending raw_links row with an empty url field. -/
def c4Item : PendingItem :=
  { video_id := "vid9", title := "t", url := "", category := some "funny" }

/-- A pending raw_links row with its url present. -/
def c4WItem : PendingItem :=
  { video_id := "vid10", title := "t"
    url := "https://youtube.com/watch?v=vid10", category := none }

def c4State : RaterState :=
  { raw_links := [c4Item], discarded := [], tobe_links := [], time_comments := [] }

def c4WState : RaterState :=
  { raw_links := [c4WItem], discarded := [], tobe_links := [], time_comments := [] }

/-- A rater environment whose fetch always raises (an HttpError), the
processing-error outcome. -/
def c4Env : RaterEnv := { fetchResult := fun _ => .error "HttpError 403" }

/-- A manus collection environment whose searches all return nothing. -/
def c5EnvM : MLoopEnv :=
  { menv := c1EnvM
    searchResults := fun _ => []
    queryChoice := fun _ => "funny fails 2024 new" }

/-- A streamlit collection environment whose searches all return nothing
and whose metadata oracle returns nothing. -/
def c5EnvS : SLoopEnv :=
  { cenv := { c1Env with detailsOf := fun _ => none }
    searchPage := fun _ _ => ([], none)
    queryChoice := fun _ => "soldier surprise homecoming"
    require_captions := true }

/-- A streamlit collection environment where every outbound call returns:
the search yields one candidate page and the metadata oracle returns the
payload whose duration string is malformed (c1Det). -/
def c5BadEnvS : SLoopEnv :=
  { cenv := c1Env
    searchPage := fun _ _ => ([okItem], none)
    queryChoice := fun _ => "soldier surprise homecoming"
    require_captions := true }

/-! ### Shared bound lemmas for the scorer -/

theorem analyze_comments_nonneg (comments : List String) (category_key : String) :
    0 ≤ (analyze_comments_for_category comments category_key).category_validation ∧
      0 ≤ (analyze_comments_for_category comments category_key).emotional_alignment ∧
      0 ≤ (analyze_comments_for_category comments category_key).authenticity_support ∧
      0 ≤ (analyze_comments_for_category comments category_key).engagement_quality := by
  simp only [analyze_comments_for_category]
  split_ifs <;> refine ⟨?_, ?_, ?_, ?_⟩ <;> dsimp only <;> positivity

theorem contentMatchOf_nonneg (video_data : VideoData) (category_key : String) :
    0 ≤ contentMatchOf video_data category_key := by
  simp only [contentMatchOf]
  positivity

theorem engagementOf_nonneg (video_data : VideoData) : 0 ≤ engagementOf video_data := by
  simp only [engagementOf]
  split_ifs <;> positivity

theorem weightedScoreOf_nonneg (video_data : VideoData) (category_key : String) :
    0 ≤ weightedScoreOf video_data category_key := by
  obtain ⟨h1, h2, h3, _⟩ := analyze_comments_nonneg video_data.comments category_key
  have hc := contentMatchOf_nonneg video_data category_key
  have he := engagementOf_nonneg video_data
  simp only [weightedScoreOf]
  split_ifs <;> linarith

theorem baseScoreOf_nonneg (category_key : String) : 0 ≤ baseScoreOf category_key := by
  simp only [baseScoreOf]
  split_ifs <;> norm_num

/-- Claim C2: for every input video data and category, the final score of
calculate_category_score lies in [0, 10] and the confidence in [0, 1]. -/
theorem calculate_category_score_bounds (video_data : VideoData) (category_key : String) :
    0 ≤ (calculate_category_score video_data category_key).final_score ∧
      (calculate_category_score video_data category_key).final_score ≤ 10 ∧
      0 ≤ (calculate_category_score video_data category_key).confidence ∧
      (calculate_category_score video_data category_key).confidence ≤ 1 := by
  obtain ⟨h1, _, _, _⟩ := analyze_comments_nonneg video_data.comments category_key
  have hw := weightedScoreOf_nonneg video_data category_key
  have hb := baseScoreOf_nonneg category_key
  simp only [calculate_category_score]
  refine ⟨?_, min_le_right _ _, ?_, min_le_right _ _⟩
  · refine le_min ?_ (by norm_num)
    split_ifs <;> linarith
  · refine le_min ?_ (by norm_num)
    split_ifs <;> norm_num

/-- Claim C10: on the empty comment list every component signal is 0.0 and
the moments list is empty, for every category, by the short-circuit before
any keyword logic runs. -/
theorem analyze_comments_empty (category_key : String) :
    analyze_comments_for_category [] category_key =
      { category_validation := 0
        emotional_alignment := 0
        authenticity_support := 0
        engagement_quality := 0
        timestamped_moments := [] } := rfl

/-- Claim C8: the moments returned by extract_timestamped_moments are
sorted by descending relevance score, ties broken by ascending seconds
(the order relation momentOrder). -/
theorem extract_timestamped_moments_sorted (comments : List String) (category_key : String) :
    List.Sorted momentOrder (extract_timestamped_moments comments category_key) :=
  List.sorted_insertionSort momentOrder _

/-- Claim C9: when authenticity support is below 0.2, the times-0.6 penalty
is applied to the total built after the weighted composite (base score plus
the weighted sum scaled by 7.0, plus the validation bonus), not to the
components before weighting; in particular an otherwise-final total of 8.0
yields a final score of 4.8. -/
theorem authenticity_penalty_after_weighting (video_data : VideoData) (category_key : String)
    (h1 : (analyze_comments_for_category video_data.comments category_key).authenticity_support
      < 2/10)
    (h2 : score_before_penalty video_data category_key = 8) :
    (calculate_category_score video_data category_key).final_score = 24/5 := by
  simp only [score_before_penalty] at h2
  simp only [calculate_category_score]
  rw [if_pos h1, h2]
  rw [min_eq_left (by norm_num)]
  norm_num

theorem authenticity_penalty_after_weighting_witness :
    (analyze_comments_for_category c9Video.comments "heartwarming").authenticity_support < 2/10 ∧
      score_before_penalty c9Video "heartwarming" = 8 ∧
      (calculate_category_score c9Video "heartwarming").final_score = 24/5 := by
  have hm : extract_timestamped_moments c9Video.comments "heartwarming" = [] := by decide
  have e1 : positive_emotions_hw.countP
      (fun w => strContains (pyLower (joinWith " " c9Video.comments)) w) = 1 := by decide
  have e2 : authenticity_words_hw.countP
      (fun w => strContains (pyLower (joinWith " " c9Video.comments)) w) = 0 := by decide
  have e3 : fake_indicators_hw.countP
      (fun w => strContains (pyLower (joinWith " " c9Video.comments)) w) = 0 := by decide
  have hlen : (c9Video.comments.length : ℚ) = 25 := by norm_num [c9Video]
  have hA : analyze_comments_for_category c9Video.comments "heartwarming" =
      { category_validation := 4/5
        emotional_alignment := 1
        authenticity_support := 1/10
        engagement_quality := 1/25
        timestamped_moments := [] } := by
    simp only [analyze_comments_for_category, if_neg (by decide : ¬c9Video.comments.isEmpty = true),
      if_pos rfl, e1, e2, e3, hlen, hm]
    norm_num [min_def, max_def]
  have h1 : (analyze_comments_for_category c9Video.comments "heartwarming").authenticity_support
      < 2/10 := by
    rw [hA]
    norm_num
  have e4 : (score_category_keywords "heartwarming").countP
      (fun kw => strContains (pyLower (c9Video.title ++ " " ++ c9Video.description)) kw) = 4 := by
    decide
  have h2 : score_before_penalty c9Video "heartwarming" = 8 := by
    simp only [score_before_penalty, weightedScoreOf, contentMatchOf, engagementOf, baseScoreOf,
      hA, e4, if_pos rfl]
    norm_num [c9Video, min_def]
  exact ⟨h1, h2, authenticity_penalty_after_weighting c9Video "heartwarming" h1 h2⟩

/-! ### Validation-pipeline theorems -/

/-- Under a well-formed payload the streamlit validate reaches a tagged
result: both raise sites are parse failures excluded by the hypothesis. -/
theorem validate_ok_of_wf (env : CollectorEnv) (item : SearchItem)
    (target_category : String) (require_captions : Bool)
    (hwf : ∀ d, env.detailsOf item.videoId = some d →
      (parse_duration d.duration).isSome ∧ (statInt d.viewCount).isSome) :
    ∃ v, validate_video_optimized env item target_category require_captions = .ok v := by
  rcases hd : env.detailsOf item.videoId with _ | d
  · simp only [validate_video_optimized, hd]
    split_ifs <;> exact ⟨_, rfl⟩
  · obtain ⟨hq, hvc⟩ := hwf d hd
    rcases hq2 : parse_duration d.duration with _ | q
    · rw [hq2] at hq
      simp at hq
    rcases hv2 : statInt d.viewCount with _ | n
    · rw [hv2] at hvc
      simp at hvc
    simp only [validate_video_optimized, hd, hq2, hv2]
    split_ifs <;> exact ⟨_, rfl⟩

/-- If the streamlit validate accepts, the accepted payload is the fetched
one (inversion of the accept branch). -/
theorem validate_accept_inversion (env : CollectorEnv) (item : SearchItem)
    (target_category : String) (require_captions : Bool) (det : Details)
    (h : validate_video_optimized env item target_category require_captions = .ok (.accept det)) :
    env.detailsOf item.videoId = some det := by
  simp only [validate_video_optimized] at h
  repeat' split at h
  all_goals simp_all

/-- Claim C1 (amended): the manus validate_video_optimized always returns a
tagged result (its body runs under try/except, so even a malformed
duration, view count or publication date yields Reject with a
validation-error reason); the streamlit validate_video_optimized returns a
tagged result provided the fetched numeric fields parse. -/
theorem validate_returns_tagged_result (envM : ManusEnv) (envS : CollectorEnv)
    (itemM itemS : SearchItem) (target_category : String) (require_captions : Bool)
    (hwf : ∀ d, envS.detailsOf itemS.videoId = some d →
      (parse_duration d.duration).isSome ∧ (statInt d.viewCount).isSome) :
    ((∃ d, validate_video_optimized_manus envM itemM = .accept d) ∨
        ∃ r, validate_video_optimized_manus envM itemM = .reject r) ∧
      ∃ v, validate_video_optimized envS itemS target_category require_captions = .ok v := by
  constructor
  · rcases h : validate_video_optimized_manus envM itemM with d | r
    · exact Or.inl ⟨d, rfl⟩
    · exact Or.inr ⟨r, rfl⟩
  · exact validate_ok_of_wf envS itemS target_category require_captions hwf

theorem validate_returns_tagged_result_witness :
    (∀ d, c1EnvOk.detailsOf okItem.videoId = some d →
        (parse_duration d.duration).isSome ∧ (statInt d.viewCount).isSome) ∧
      (((∃ d, validate_video_optimized_manus c1EnvM okItem = .accept d) ∨
          ∃ r, validate_video_optimized_manus c1EnvM okItem = .reject r) ∧
        ∃ v, validate_video_optimized c1EnvOk okItem "heartwarming" true = .ok v) := by
  have hwf : ∀ d, c1EnvOk.detailsOf okItem.videoId = some d →
      (parse_duration d.duration).isSome ∧ (statInt d.viewCount).isSome := by
    intro d hd
    cases hd
    exact ⟨by decide, by decide⟩
  exact ⟨hwf, validate_returns_tagged_result c1EnvM c1EnvOk okItem okItem "heartwarming" true hwf⟩

/-- Claim C1 counterexample: the streamlit validate_video_optimized has no
try/except, so a candidate whose metadata passes the duplicate, caption
checks but carries a malformed duration string makes
isodate.parse_duration raise, and the exception escapes instead of a
tagged result. -/
theorem validate_raises_on_malformed_duration :
    validate_video_optimized c1Env okItem "heartwarming" true =
      .error "isodate.parse_duration raised" := rfl

/-- Claim C3 (amended): the 180-day age check exists only in the manus
variant: there, a candidate that passes the oEmbed fetch, the content
filters, the shorts detection, the duplicate check, the metadata fetch and
the caption check, and whose publication instant is earlier than now minus
180 days, is rejected as too old. -/
theorem manus_validate_rejects_old (env : ManusEnv) (item : SearchItem) (oe : Oembed)
    (d : Details) (t : Int)
    (hoe : env.oembedOf item.videoId = some oe)
    (hcf : check_content_filters (oe.title.getD item.title) (oe.author_name.getD "") = .passed)
    (hds : detect_shorts_by_url_pattern oe = false)
    (hdup : env.collectedIds.contains item.videoId = false)
    (hd : env.detailsOf item.videoId = some d)
    (hcap : manusCaptionCheck d.caption = true)
    (hpub : d.publishedAt = some t)
    (hold : t < env.now - 180 * 86400) :
    validate_video_optimized_manus env item = .reject .tooOld := by
  have hdup2 : item.videoId ∉ env.collectedIds := by simpa using hdup
  have hold2 : t < env.now - 15552000 := by linarith
  unfold validate_video_optimized_manus
  simp [validate_manus_body, hoe, hcf, hds, hd, hcap, hpub, hdup2, hold2]

theorem manus_validate_rejects_old_witness :
    c3Det.publishedAt = some 0 ∧ (0 : Int) < c3EnvM.now - 180 * 86400 ∧
      validate_video_optimized_manus c3EnvM okItem = .reject .tooOld :=
  ⟨rfl, by decide,
    manus_validate_rejects_old c3EnvM okItem okOe c3Det 0 rfl (by decide) (by decide) rfl rfl
      rfl rfl (by decide)⟩

/-- Claim C3 counterexample: the streamlit validate_video_optimized never
consults publishedAt: a candidate published at epoch 0, far earlier than
the reference now (2025-10-12) minus 180 days, passing every other check,
is accepted rather than rejected as too old. -/
theorem streamlit_validate_accepts_old_video :
    validate_video_optimized c3Env okItem "heartwarming" true = .ok (.accept c3Det) ∧
      c3Det.publishedAt = some 0 ∧ (0 : Int) < 1760227200 - 180 * 86400 :=
  ⟨rfl, rfl, by decide⟩

/-- Claim C6: metadata whose duration parses below 90 seconds is rejected
by both validation variants, whatever every other field holds: the
streamlit variant returns a tagged rejection, and the manus variant never
accepts (any earlier exit is already a rejection, and an escaped exception
becomes a validation-error rejection). -/
theorem duration_floor_rejects (envS : CollectorEnv) (envM : ManusEnv) (item : SearchItem)
    (target_category : String) (require_captions : Bool) (d : Details) (q : ℚ)
    (hdS : envS.detailsOf item.videoId = some d)
    (hdM : envM.detailsOf item.videoId = some d)
    (hq : parse_duration d.duration = some q) (hlt : q < 90) :
    (∃ r, validate_video_optimized envS item target_category require_captions =
        .ok (.reject r)) ∧
      ∃ r, validate_video_optimized_manus envM item = .reject r := by
  constructor
  · simp only [validate_video_optimized, hdS, hq]
    split_ifs <;> exact ⟨_, rfl⟩
  · rcases hv : validate_video_optimized_manus envM item with det | r
    · exfalso
      unfold validate_video_optimized_manus at hv
      split at hv
      · rename_i r heq
        subst hv
        simp only [validate_manus_body] at heq
        repeat' split at heq
        all_goals simp_all
        all_goals linarith
      · rename_i msg heq
        simp at hv
    · exact ⟨r, rfl⟩

theorem duration_floor_rejects_witness :
    parse_duration c6Det.duration = some ((75 : Nat) : ℚ) ∧ ((75 : Nat) : ℚ) < 90 ∧
      (∃ r, validate_video_optimized c6EnvS okItem "heartwarming" true = .ok (.reject r)) ∧
      ∃ r, validate_video_optimized_manus c6EnvM okItem = .reject r :=
  ⟨rfl, by decide,
    duration_floor_rejects c6EnvS c6EnvM okItem "heartwarming" true c6Det ((75 : Nat) : ℚ)
      rfl rfl rfl (by decide)⟩

/-- Claim C7: for a candidate reaching the view-count check (every earlier
check passes), both variants reject at 9,999 views with the view-count
reason, and at 10,000 views the view-count check passes: the streamlit
result is decided by the remaining keyword check alone, and the manus
result is never a view-count rejection. -/
theorem view_count_boundary
    (envS : CollectorEnv) (envM : ManusEnv) (item : SearchItem)
    (target_category : String) (require_captions : Bool)
    (dS dM : Details) (qS qM : ℚ) (oe : Oembed) (t : Int)
    (h1 : item.videoId ∉ envS.collectedIds)
    (h2 : item.videoId ∉ envS.existingSheetIds)
    (h3 : videoUrl item.videoId ∉ envS.discardedUrls)
    (hdS : envS.detailsOf item.videoId = some dS)
    (hcapS : (require_captions && !check_caption_availability dS.caption) = false)
    (hqS : parse_duration dS.duration = some qS) (hq90S : ¬ qS < 90)
    (hoe : envM.oembedOf item.videoId = some oe)
    (hcf : check_content_filters (oe.title.getD item.title) (oe.author_name.getD "") = .passed)
    (hds : detect_shorts_by_url_pattern oe = false)
    (hdupM : item.videoId ∉ envM.collectedIds)
    (hdM : envM.detailsOf item.videoId = some dM)
    (hcapM : manusCaptionCheck dM.caption = true)
    (hpub : dM.publishedAt = some t) (hage : ¬ t < envM.now - 180 * 86400)
    (hqM : parse_duration dM.duration = some qM) (hq90M : ¬ qM < 90) :
    (statInt dS.viewCount = some 9999 →
        validate_video_optimized envS item target_category require_captions =
          .ok (.reject (.viewCountLow 9999))) ∧
      (statInt dS.viewCount = some 10000 →
        validate_video_optimized envS item target_category require_captions =
          if ((category_keywords target_category).filter (fun kw =>
              strContains (pyLower (pyLower item.title ++ " " ++ dS.description)) kw)).isEmpty
          then .ok (.reject (.noKeywords target_category)) else .ok (.accept dS)) ∧
      (statInt dM.viewCount = some 9999 →
        validate_video_optimized_manus envM item = .reject (.viewCountLow 9999)) ∧
      (statInt dM.viewCount = some 10000 →
        ∀ n, validate_video_optimized_manus envM item ≠ .reject (.viewCountLow n)) := by
  have hage2 : ¬ t < envM.now - 15552000 := by omega
  refine ⟨?_, ?_, ?_, ?_⟩
  · intro hvc
    simp [validate_video_optimized, hdS, hqS, hvc, h1, h2, h3, hcapS, hq90S]
  · intro hvc
    simp [validate_video_optimized, hdS, hqS, hvc, h1, h2, h3, hcapS, hq90S]
  · intro hvc
    unfold validate_video_optimized_manus
    simp [validate_manus_body, hoe, hcf, hds, hdM, hcapM, hpub, hdupM, hage2, hqM, hq90M, hvc]
  · intro hvc n hv
    unfold validate_video_optimized_manus at hv
    split at hv
    · rename_i r heq
      subst hv
      simp only [validate_manus_body] at heq
      repeat' split at heq
      all_goals simp_all
    · rename_i msg heq
      simp at hv

theorem view_count_boundary_witness :
    statInt c7DetLow.viewCount = some 9999 ∧
      validate_video_optimized c7EnvSLow okItem "heartwarming" true =
        .ok (.reject (.viewCountLow 9999)) ∧
      validate_video_optimized_manus c7EnvMLow okItem = .reject (.viewCountLow 9999) := by
  have T := view_count_boundary c7EnvSLow c7EnvMLow okItem "heartwarming" true
    c7DetLow c7DetLow ((300 : Nat) : ℚ) ((300 : Nat) : ℚ) okOe 1755000000
    (by decide) (by decide) (by decide) rfl (by decide) rfl (by decide)
    rfl (by decide) (by decide) (by decide) rfl rfl rfl (by decide) rfl (by decide)
  exact ⟨rfl, T.1 rfl, T.2.2.1 rfl⟩

/-! ### Rating-loop theorems -/

/-- Claim C4 (amended): every pending item with a non-empty URL, whatever
the outcome of its rating iteration (promotion, rejection below the
threshold, a fetch/analysis error, or a missing video id), is removed from
the head of raw_links and its URL is appended to the discarded set. -/
theorem rate_step_removes_and_discards (env : RaterEnv) (s : RaterState)
    (item : PendingItem) (rest : List PendingItem)
    (hq : s.raw_links = item :: rest) (hurl : item.url ≠ "") :
    (rate_step env s).raw_links = rest ∧ item.url ∈ (rate_step env s).discarded := by
  rcases hf : env.fetchResult item.video_id with e | vd <;>
    simp only [rate_step, hq, hf] <;> split_ifs <;>
    simp_all [List.mem_append]

theorem rate_step_removes_and_discards_witness :
    c4WState.raw_links = [c4WItem] ∧ c4WItem.url ≠ "" ∧
      (rate_step c4Env c4WState).raw_links = [] ∧
      c4WItem.url ∈ (rate_step c4Env c4WState).discarded := by
  have h := rate_step_removes_and_discards c4Env c4WState c4WItem [] rfl (by decide)
  exact ⟨rfl, by decide, h.1, h.2⟩

/-- Claim C4 counterexample: a pending item whose url field is empty (or
missing) is removed from raw_links but nothing is appended to the
discarded set, so the claim that every processed item gets its URL
discarded fails at this input. -/
theorem rate_step_empty_url_not_discarded :
    c4State.raw_links = [c4Item] ∧ c4Item.url = "" ∧
      (rate_step c4Env c4State).raw_links = [] ∧
      (rate_step c4Env c4State).discarded = [] := by decide

/-! ### Collection-loop termination lemmas -/

/-- The per-item loop of the manus collector never touches the attempt
counter. -/
theorem processItemsM_attempts (env : MLoopEnv) (target : Nat) (cat query : String) :
    ∀ (items : List SearchItem) (s : MState) (found : Nat),
      (processItemsM env target cat query items s found).1.attempts = s.attempts := by
  intro items
  induction items with
  | nil => intro s found; rfl
  | cons item rest ih =>
      intro s found
      simp only [processItemsM]
      split_ifs
      · rfl
      · exact ih s found
      · rcases validate_video_optimized_manus
            { env.menv with collectedIds := s.sessionIds } item with d | r <;> dsimp only
        · rcases mkVideoRecordM item d cat query with _ | r2 <;> dsimp only <;> exact ih _ _
        · exact ih _ _

/-- When an iteration of the manus collection loop breaks, the consecutive
failure counter has reached its limit. -/
theorem collectIterationM_break (env : MLoopEnv) (target : Nat) (category : String) (s : MState)
    (h : (collectIterationM env target category s).2 = true) :
    max_consecutive_failures_manus ≤
      (collectIterationM env target category s).1.consecutiveFailures := by
  simp only [collectIterationM] at h ⊢
  split_ifs at h ⊢ with h1 h2
  simpa using h2

/-- When an iteration of the manus collection loop does not break, the
attempt counter advances by exactly one. -/
theorem collectIterationM_attempts (env : MLoopEnv) (target : Nat) (category : String)
    (s : MState) (h : (collectIterationM env target category s).2 = false) :
    (collectIterationM env target category s).1.attempts = s.attempts + 1 := by
  simp only [collectIterationM] at h ⊢
  split_ifs at h ⊢ with h1 h2
  all_goals simp [processItemsM_attempts]

/-- The while loop of collect_videos (manus) ends with the target reached,
the attempt budget exhausted, or the consecutive-failure limit reached,
provided the fuel covers the remaining attempt budget. -/
theorem collectLoopM_post (env : MLoopEnv) (target : Nat) (category : String) :
    ∀ (fuel : Nat) (s : MState), max_attempts_manus ≤ fuel + s.attempts →
      target ≤ (collectLoopM env target category fuel s).collected.length ∨
        max_attempts_manus ≤ (collectLoopM env target category fuel s).attempts ∨
        max_consecutive_failures_manus ≤
          (collectLoopM env target category fuel s).consecutiveFailures := by
  intro fuel
  induction fuel with
  | zero =>
      intro s h
      simp only [collectLoopM]
      omega
  | succ n ih =>
      intro s h
      simp only [collectLoopM]
      split_ifs with hg
      · rcases hit : collectIterationM env target category s with ⟨s2, b⟩
        cases b
        · have ha := collectIterationM_attempts env target category s (by rw [hit])
          rw [hit] at ha
          dsimp only at ha ⊢
          exact ih s2 (by omega)
        · have hb := collectIterationM_break env target category s (by rw [hit])
          rw [hit] at hb
          dsimp only at hb ⊢
          exact Or.inr (Or.inr hb)
      · omega

/-- Under a well-formed environment the streamlit record construction
cannot raise. -/
theorem mkVideoRecordS_isSome (item : SearchItem) (d : Details) (cat query : String)
    (page : Nat) (h : DetailsWF d) : ∃ r, mkVideoRecordS item d cat query page = some r := by
  obtain ⟨h1, h2, h3, h4⟩ := h
  rcases e1 : parse_duration d.duration with _ | q
  · rw [e1] at h1
    simp at h1
  rcases e2 : statInt d.viewCount with _ | a
  · rw [e2] at h2
    simp at h2
  rcases e3 : statInt d.likeCount with _ | b
  · rw [e3] at h3
    simp at h3
  rcases e4 : statInt d.commentCount with _ | c
  · rw [e4] at h4
    simp at h4
  simp only [mkVideoRecordS, e1, e2, e3, e4]
  exact ⟨_, rfl⟩

/-- Under a well-formed environment the per-item loop of the streamlit
collector reaches a tagged result and never touches the attempt counter. -/
theorem processItemsS_ok (env : SLoopEnv) (hwf : SLoopEnvWF env) (target : Nat)
    (cat query : String) (page : Nat) :
    ∀ (items : List SearchItem) (s : SState) (found : Nat),
      ∃ s2 f2, processItemsS env target cat query page items s found = .ok (s2, f2) ∧
        s2.attempts = s.attempts := by
  intro items
  induction items with
  | nil => intro s found; exact ⟨s, found, rfl, rfl⟩
  | cons item rest ih =>
      intro s found
      simp only [processItemsS]
      split_ifs with h1 h2
      · exact ⟨s, found, rfl, rfl⟩
      · exact ih s found
      · obtain ⟨v, hv⟩ := validate_ok_of_wf
          { env.cenv with collectedIds := s.sessionIds } item cat env.require_captions
          (fun d hd => ⟨(hwf _ d hd).1, (hwf _ d hd).2.1⟩)
        rcases v with d | r
        · have hd : env.cenv.detailsOf item.videoId = some d :=
            validate_accept_inversion { env.cenv with collectedIds := s.sessionIds } item cat
              env.require_captions d hv
          obtain ⟨r2, hr2⟩ := mkVideoRecordS_isSome item d cat query page (hwf _ d hd)
          rw [hv]
          dsimp only
          rw [hr2]
          dsimp only
          exact ih _ _
        · rw [hv]
          dsimp only
          exact ih _ _

/-- Under a well-formed environment the pagination loop of the streamlit
collector reaches a tagged result and never touches the attempt counter. -/
theorem pageLoopS_ok (env : SLoopEnv) (hwf : SLoopEnvWF env) (target attempt : Nat)
    (cat query : String) :
    ∀ (fuel pagesFetched : Nat) (s : SState),
      ∃ s2, pageLoopS env target attempt cat query fuel pagesFetched s = .ok s2 ∧
        s2.attempts = s.attempts := by
  intro fuel
  induction fuel with
  | zero => intro pf s; exact ⟨s, rfl, rfl⟩
  | succ n ih =>
      intro pf s
      simp only [pageLoopS]
      split_ifs with h1 h2
      · exact ⟨s, rfl, rfl⟩
      · obtain ⟨s2, f2, hp, hatt⟩ := processItemsS_ok env hwf target cat query (pf + 1)
          (search_prefilter (env.searchPage attempt pf).1) s 0
        rw [hp]
        dsimp only
        split_ifs with h3
        · obtain ⟨s3, hp3, hatt3⟩ := ih (pf + 1) s2
          rw [hp3]
          exact ⟨s3, rfl, by omega⟩
        · exact ⟨s2, rfl, hatt⟩
      · exact ⟨s, rfl, rfl⟩

/-- Under a well-formed environment one iteration of the streamlit
collection loop reaches a tagged result and advances the attempt counter
by one. -/
theorem collectIterationS_ok (env : SLoopEnv) (hwf : SLoopEnvWF env) (target : Nat)
    (category : String) (s : SState) :
    ∃ s2, collectIterationS env target category s = .ok s2 ∧
      s2.attempts = s.attempts + 1 := by
  simp only [collectIterationS]
  obtain ⟨s1, hp, ha⟩ := pageLoopS_ok env hwf target s.attempts
    ((categoriesOf category).getD (s.categoryIndex % (categoriesOf category).length) "")
    (env.queryChoice s.attempts) max_pages_streamlit 0
    { s with usedQueries := env.queryChoice s.attempts :: s.usedQueries }
  rw [hp]
  dsimp only
  exact ⟨_, rfl, by simpa using ha⟩

/-- Under a well-formed environment the while loop of
collect_videos_with_pagination ends with a tagged result whose state has
the target reached or the attempt budget exhausted, provided the fuel
covers the remaining budget. -/
theorem collectLoopS_post (env : SLoopEnv) (hwf : SLoopEnvWF env) (target : Nat)
    (category : String) :
    ∀ (fuel : Nat) (s : SState), max_attempts_streamlit ≤ fuel + s.attempts →
      ∃ s2, collectLoopS env target category fuel s = .ok s2 ∧
        (target ≤ s2.collected.length ∨ max_attempts_streamlit ≤ s2.attempts) := by
  intro fuel
  induction fuel with
  | zero =>
      intro s h
      exact ⟨s, rfl, Or.inr (by omega)⟩
  | succ n ih =>
      intro s h
      simp only [collectLoopS]
      split_ifs with hg
      · obtain ⟨s2, hi, ha⟩ := collectIterationS_ok env hwf target category s
        rw [hi]
        exact ih s2 (by omega)
      · exact ⟨s, rfl, by omega⟩

/-- Claim C5 (amended): the manus collect_videos always ends with the
target reached, max_attempts (50) exhausted, or max_consecutive_failures
(10) reached; the streamlit collect_videos_with_pagination ends with a
tagged result whose state has the target reached or max_attempts (30)
exhausted provided every payload its metadata oracle returns parses —
without that proviso it can instead terminate by an escaping exception,
see the counterexample below. -/
theorem collection_loops_halt (envM : MLoopEnv) (targetM : Nat) (catM : String)
    (ids0 : List String) (envS : SLoopEnv) (targetS : Nat) (catS : String)
    (sids0 uq0 : List String) (hwf : SLoopEnvWF envS) :
    (targetM ≤ (collect_videos envM targetM catM ids0).collected.length ∨
        max_attempts_manus ≤ (collect_videos envM targetM catM ids0).attempts ∨
        max_consecutive_failures_manus ≤
          (collect_videos envM targetM catM ids0).consecutiveFailures) ∧
      ∃ s, collect_videos_with_pagination envS targetS catS sids0 uq0 = .ok s ∧
        (targetS ≤ s.collected.length ∨ max_attempts_streamlit ≤ s.attempts) := by
  constructor
  · exact collectLoopM_post envM targetM catM max_attempts_manus _ (by omega)
  · exact collectLoopS_post envS hwf targetS catS max_attempts_streamlit _ (by omega)

theorem collection_loops_halt_witness :
    SLoopEnvWF c5EnvS ∧
      ((5 ≤ (collect_videos c5EnvM 5 "mixed" []).collected.length ∨
          max_attempts_manus ≤ (collect_videos c5EnvM 5 "mixed" []).attempts ∨
          max_consecutive_failures_manus ≤
            (collect_videos c5EnvM 5 "mixed" []).consecutiveFailures) ∧
        ∃ s, collect_videos_with_pagination c5EnvS 5 "mixed" [] [] = .ok s ∧
          (5 ≤ s.collected.length ∨ max_attempts_streamlit ≤ s.attempts)) := by
  have hwf : SLoopEnvWF c5EnvS := by
    intro id d h
    simp [c5EnvS, c1Env] at h
  exact ⟨hwf, collection_loops_halt c5EnvM 5 "mixed" [] c5EnvS 5 "mixed" [] [] hwf⟩

/-- Claim C5 counterexample: in an environment where every outbound call
returns — the search yields a candidate and the metadata call returns a
payload whose duration string is malformed — the streamlit collection loop
exits on its very first attempt through the exception escaping from
isodate.parse_duration (its body has no try/except), with nothing
collected and the attempt counter at 0: none of the three termination
conditions the claim names. -/
theorem streamlit_collect_loop_exits_via_exception :
    collect_videos_with_pagination c5BadEnvS 5 "heartwarming" [] [] =
      .error "isodate.parse_duration raised" ∧
      ∀ s, collect_videos_with_pagination c5BadEnvS 5 "heartwarming" [] [] ≠ .ok s := by
  refine ⟨rfl, fun s h => ?_⟩
  rw [(rfl : collect_videos_with_pagination c5BadEnvS 5 "heartwarming" [] [] =
    .error "isodate.parse_duration raised")] at h
  exact Except.noConfusion h

end DataCollector
